import Mathlib

/-
Verification development for the Optima client-side telemetry agent
(src/optima.js).  The JavaScript source is shallowly embedded below:
pure computations become Lean functions, stateful handlers become
explicit state-passing functions, JavaScript `undefined` fields become
`Option`, and code that can raise exceptions returns `Except`.
Timestamps and metric values are modelled as `Int` (only their ordering
matters for the verified properties).
-/

namespace Optima

/-- One slot of `unifiedDataModel.web_vitals`: the source stores
`{value, timestamp, <signal-specific context>}`; the signal-specific
context (element info, inputType, entries count, ...) is collapsed into
a single `detail` string, since no verified property inspects its
internal structure. -/
structure VitalRecord where
  value : Int
  timestamp : Int
  detail : String
deriving Repr, DecidableEq

/-- The `web_vitals` object of the unified data model: one nullable slot
per vital, as initialized in the `Optima` constructor. -/
structure WebVitals where
  LCP : Option VitalRecord
  FID : Option VitalRecord
  CLS : Option VitalRecord
  TTFB : Option VitalRecord
  INP : Option VitalRecord
deriving Repr, DecidableEq

/-- The constructor initializes every vital slot to `null`. -/
def WebVitals.empty : WebVitals :=
  { LCP := none, FID := none, CLS := none, TTFB := none, INP := none }

/-- The `event_data` of a `core_web_vital` event: `{name, value, ...}`;
extra fields are collapsed into `detail`. -/
structure EventData where
  name : String
  value : Int
  detail : String
deriving Repr, DecidableEq

/-- An event as built by `Optima.prototype.sendEvent`:
`{session_id, event_type, event_data, timestamp}`. -/
structure Event where
  session_id : String
  event_type : String
  event_data : Option EventData
  timestamp : Int
deriving Repr, DecidableEq

/-- Loop body of `Optima.prototype._updateWebVitalsInUnifiedModel`: merge one
buffered web-vital event into the `web_vitals` object.  Events without
`event_data` or with a falsy (empty) name are skipped; LCP, CLS and INP keep
the largest value; FID keeps the first value. -/
def mergeVital (wv : WebVitals) (vital : Event) : WebVitals :=
  match vital.event_data with
  | none => wv
  | some d =>
    if d.name = "" then wv
    else if d.name = "LCP" then
      match wv.LCP with
      | none => { wv with LCP := some ⟨d.value, vital.timestamp, d.detail⟩ }
      | some old =>
        if d.value > old.value then
          { wv with LCP := some ⟨d.value, vital.timestamp, d.detail⟩ }
        else wv
    else if d.name = "FID" then
      match wv.FID with
      | none => { wv with FID := some ⟨d.value, vital.timestamp, d.detail⟩ }
      | some _ => wv
    else if d.name = "CLS" then
      match wv.CLS with
      | none => { wv with CLS := some ⟨d.value, vital.timestamp, d.detail⟩ }
      | some old =>
        if d.value > old.value then
          { wv with CLS := some ⟨d.value, vital.timestamp, d.detail⟩ }
        else wv
    else if d.name = "INP" then
      match wv.INP with
      | none => { wv with INP := some ⟨d.value, vital.timestamp, d.detail⟩ }
      | some old =>
        if d.value > old.value then
          { wv with INP := some ⟨d.value, vital.timestamp, d.detail⟩ }
        else wv
    else wv

/-- Does `pat` occur at the start of `xs`?  (List-level helper used to give
kernel-computable string search.) -/
def listStartsWith : List Char → List Char → Bool
  | [], _ => true
  | _ :: _, [] => false
  | p :: ps, x :: xs => p == x && listStartsWith ps xs

/-- Does `pat` occur contiguously anywhere in the list? -/
def occursWithin (pat : List Char) : List Char → Bool
  | [] => listStartsWith pat []
  | c :: rest => listStartsWith pat (c :: rest) || occursWithin pat rest

/-- JavaScript `s.includes(pat)`. -/
def strIncludes (s pat : String) : Bool :=
  occursWithin pat.toList s.toList

/-- JavaScript `url.split('?')[0]`: the part of the string before the first
question mark (the whole string when there is none). -/
def stripQuery (url : String) : String :=
  String.mk (url.toList.takeWhile (fun c => c != '?'))

/-- Case-insensitive test mirroring the source regexes
`/\.(?:ext1|ext2|...)(?:\?|$)/i`: some listed extension, preceded by a dot,
occurs either at the end of the URL or followed by a question mark. -/
def hasExtensionMatch (url : String) (exts : List String) : Bool :=
  let u := url.toList.map Char.toLower
  exts.any (fun ext =>
    let e := ("." ++ ext).toList
    listStartsWith e.reverse u.reverse || occursWithin (e ++ ['?']) u)

/-- A platform `PerformanceResourceTiming` entry, restricted to the fields the
source reads.  Numeric fields are integral in this model (the source applies
`Math.round` where it matters). -/
structure PerfResourceEntry where
  name : String
  initiatorType : String
  startTime : Int
  duration : Int
  transferSize : Int
  nextHopProtocol : String
  encodedBodySize : Int
  decodedBodySize : Int
deriving Repr, DecidableEq

/-- A record of `unifiedDataModel.resources`, as built inside
`Optima.prototype._collectResources`. -/
structure ProcessedResource where
  name : String
  type : String
  startTime : Int
  duration : Int
  size : Int
  protocol : String
  encodedSize : Int
  decodedSize : Int
  initiatorType : String
deriving Repr, DecidableEq

/-- `Optima.prototype._getResourceType`: classify by initiator type first,
then by file extension. -/
def getResourceType (resource : PerfResourceEntry) : String :=
  let initiatorType := resource.initiatorType
  let url := resource.name
  if initiatorType = "img" ∨ initiatorType = "image" then "image"
  else if initiatorType = "script" then "script"
  else if initiatorType = "link" ∧ resource.nextHopProtocol ≠ "" then "stylesheet"
  else if initiatorType = "css" then "stylesheet"
  else if initiatorType = "fetch" ∨ initiatorType = "xmlhttprequest" then "xhr"
  else if hasExtensionMatch url ["png", "jpg", "jpeg", "gif", "webp", "svg", "ico"] then "image"
  else if hasExtensionMatch url ["js"] then "script"
  else if hasExtensionMatch url ["css"] then "stylesheet"
  else if hasExtensionMatch url ["woff2", "woff", "ttf", "otf", "eot"] then "font"
  else if hasExtensionMatch url ["mp4", "webm", "ogv"] then "video"
  else if hasExtensionMatch url ["mp3", "ogg", "wav"] then "audio"
  else "other"

/-- The simplified resource object built in `_collectResources`. -/
def processResource (resource : PerfResourceEntry) : ProcessedResource :=
  { name := resource.name
    type := getResourceType resource
    startTime := resource.startTime
    duration := resource.duration
    size := resource.transferSize
    protocol := resource.nextHopProtocol
    encodedSize := resource.encodedBodySize
    decodedSize := resource.decodedBodySize
    initiatorType := resource.initiatorType }

/-- `Optima.prototype._isResourceProcessed`: is a resource with this exact
full URL already in the unified model resources array? -/
def isResourceProcessed (resources : List ProcessedResource) (url : String) : Bool :=
  resources.any (fun resource => resource.name == url)

/-- The loop of `Optima.prototype._collectResources`: each performance entry
is appended to the unified model resources array unless an entry with the
identical full URL is already present (the membership check runs against the
growing array, so duplicates within one batch are also dropped). -/
def collectResources (model : List ProcessedResource) (entries : List PerfResourceEntry) :
    List ProcessedResource :=
  entries.foldl
    (fun acc resource =>
      if isResourceProcessed acc resource.name then acc
      else acc ++ [processResource resource])
    model

/-- `createBufferManagement.hashResource`: the composite dedup key
`type` | url-without-query | coarse duration bucket (below 50 is `fast`). -/
def hashResource (resource : ProcessedResource) : String :=
  resource.type ++ "|" ++ stripQuery resource.name ++ "|" ++
    (if resource.duration < 50 then "fast" else "slow")

/-- `createBufferManagement.shouldCollectResource`.  The seen-map is an
association list from hash to the `Date.now()` at which it was recorded
(a new entry shadows an older one, like assignment into the JS object).
A stored timestamp of `0` is falsy in JS, hence the explicit test.
`dedupingEnabled` models `sdk.batchConfig.resourceDedupingEnabled`, a field
the constructor never assigns, so its truthiness is always `false` in the
constructed agent. -/
def shouldCollectResource (dedupingEnabled : Bool) (resourceHashMap : List (String × Int))
    (now : Int) (resource : ProcessedResource) : Bool × List (String × Int) :=
  if dedupingEnabled then
    let h := hashResource resource
    match resourceHashMap.lookup h with
    | some t => if t ≠ 0 then (false, resourceHashMap) else (true, (h, now) :: resourceHashMap)
    | none => (true, (h, now) :: resourceHashMap)
  else (true, resourceHashMap)

/-- An AJAX call record (`storeAjaxCallData` payloads), restricted to the
scalar fields; header maps and resource-timing sub-records are omitted as no
verified property inspects them. -/
structure AjaxCallData where
  type : String
  method : String
  url : String
  status : Int
  statusText : String
  startTime : Int
  duration : Int
  requestPayloadSize : Int
  responseSize : Int
  aborted : Bool
  errored : Bool
  timestamp : Int
deriving Repr, DecidableEq

/-- The unified buffer created by the `Optima` constructor, plus the
pre-session AJAX holding area added by `setupAjaxMonitoring`. -/
structure Buffer where
  events : List Event
  resources : List ProcessedResource
  webVitals : List Event
  ajaxCalls : List AjaxCallData
  preSessionAjaxCalls : List AjaxCallData
deriving Repr, DecidableEq

/-- All buffers start empty. -/
def initialBuffer : Buffer :=
  { events := [], resources := [], webVitals := [], ajaxCalls := [], preSessionAjaxCalls := [] }

/-- `this.batchConfig` from the constructor.  Fields that the source reads
elsewhere but that the constructor never assigns (`maxBufferSize`,
`resourceDedupingEnabled`, `visibilityFlushEnabled`, `flushAtIdle`) are
`Option`-typed and set to `none` (JavaScript `undefined`). -/
structure BatchConfig where
  maxEventsPerBatch : Nat
  maxResourcesPerBatch : Nat
  maxWebVitalsPerBatch : Nat
  maxAjaxCallsPerBatch : Nat
  flushInterval : Nat
  webVitalsBatchDelay : Nat
  batchBeforeSend : Bool
  payloadCompressionThreshold : Nat
  maxBufferSize : Option Nat
  resourceDedupingEnabled : Option Bool
  visibilityFlushEnabled : Option Bool
  flushAtIdle : Option Bool
deriving Repr, DecidableEq

/-- The batch configuration as the constructor builds it. -/
def constructedBatchConfig (flushInterval : Nat) : BatchConfig :=
  { maxEventsPerBatch := 50
    maxResourcesPerBatch := 50
    maxWebVitalsPerBatch := 20
    maxAjaxCallsPerBatch := 50
    flushInterval := flushInterval
    webVitalsBatchDelay := 2000
    batchBeforeSend := true
    payloadCompressionThreshold := 10 * 1024
    maxBufferSize := none
    resourceDedupingEnabled := none
    visibilityFlushEnabled := none
    flushAtIdle := none }

/-- JavaScript truthiness of a possibly-undefined boolean field. -/
def truthy : Option Bool → Bool
  | none => false
  | some b => b

/-- JavaScript `xs.slice(-n)` for positive `n`: the last `n` elements. -/
def sliceLast (n : Nat) (xs : List α) : List α :=
  xs.drop (xs.length - n)

/-- One buffer trim of `createBufferManagement.trimBuffers`.  The source
compares `buffer.length > maxSize`; when `maxSize` is `undefined` that
comparison is `NaN`-tainted and always false, so nothing is ever dropped. -/
def trimOne (maxBufferSize : Option Nat) (xs : List α) : List α :=
  match maxBufferSize with
  | none => xs
  | some maxSize => if xs.length > maxSize then sliceLast maxSize xs else xs

/-- `createBufferManagement.trimBuffers`: trims the events, resources and
webVitals buffers against `batchConfig.maxBufferSize`; the ajaxCalls buffer
is not trimmed by the source at all. -/
def trimBuffers (config : BatchConfig) (buffer : Buffer) : Buffer :=
  { buffer with
    events := trimOne config.maxBufferSize buffer.events
    resources := trimOne config.maxBufferSize buffer.resources
    webVitals := trimOne config.maxBufferSize buffer.webVitals }

/-- The ambient page metadata snapshot written by
`Optima.prototype._updateMetadata`; its many browser-environment fields are
collapsed to the ones a verified property can observe change through. -/
structure Metadata where
  url : String
  timestamp : Int
  visibility_changes : Nat
deriving Repr, DecidableEq

/-- `this.unifiedDataModel` from the constructor (the fields the verified
properties touch; `errors`, `timings` and `metrics` are carried nowhere by
the claims and are omitted). -/
structure UnifiedDataModel where
  session_id : Option String
  timestamp : Option Int
  web_vitals : WebVitals
  resources : List ProcessedResource
  ajax_requests : List AjaxCallData
  meta : Option Metadata
deriving Repr, DecidableEq

/-- The unified data model as the constructor initializes it. -/
def initialUnifiedDataModel : UnifiedDataModel :=
  { session_id := none
    timestamp := none
    web_vitals := WebVitals.empty
    resources := []
    ajax_requests := []
    meta := none }

/-- The mutable agent state threaded through the flush pipeline.
`sentPayloads` records, in order, every unified-model snapshot handed to the
transport by `_sendUnifiedData` (the observable transmissions). -/
structure SdkState where
  apiKey : Option String
  sessionId : Option String
  buffer : Buffer
  unifiedDataModel : UnifiedDataModel
  sentPayloads : List UnifiedDataModel
  unloadSent : Bool
deriving Repr, DecidableEq

/-- State right after the `Optima` constructor body (before `_init` effects):
no session, empty buffers, fresh model, nothing sent. -/
def constructSdkState (apiKey : Option String) : SdkState :=
  { apiKey := apiKey
    sessionId := none
    buffer := initialBuffer
    unifiedDataModel := initialUnifiedDataModel
    sentPayloads := []
    unloadSent := false }

/-- The data-state effect of `Optima.prototype._init`: with no API key it
returns immediately; otherwise `createSession` assigns the generated session
id synchronously, before the registration request resolves. -/
def initStep (generatedId : String) (s : SdkState) : SdkState :=
  match s.apiKey with
  | none => s
  | some _ => { s with sessionId := some generatedId }

/-- `Optima.prototype._consolidateBufferedData`: move buffered resources and
AJAX calls into the unified model volatile arrays, clear those buffers and
the events buffer, stamp the model with the session id and current time, and
refresh the metadata (`_updateMetadata` reads ambient browser state, passed
here as `ambientMeta`). -/
def consolidateBufferedData (now : Int) (ambientMeta : Metadata) (s : SdkState) : SdkState :=
  let s1 :=
    if s.buffer.resources.length > 0 then
      { s with
        unifiedDataModel := { s.unifiedDataModel with
          resources := s.unifiedDataModel.resources ++ s.buffer.resources }
        buffer := { s.buffer with resources := [] } }
    else s
  let s2 :=
    if s1.buffer.ajaxCalls.length > 0 then
      { s1 with
        unifiedDataModel := { s1.unifiedDataModel with
          ajax_requests := s1.unifiedDataModel.ajax_requests ++ s1.buffer.ajaxCalls }
        buffer := { s1.buffer with ajaxCalls := [] } }
    else s1
  let s3 := { s2 with buffer := { s2.buffer with events := [] } }
  { s3 with
    unifiedDataModel := { s3.unifiedDataModel with
      session_id := s3.sessionId
      timestamp := some now
      meta := some ambientMeta } }

/-- `Optima.prototype._updateWebVitalsInUnifiedModel`: fold every buffered
web-vital event into the model under the per-vital merge rule, then clear
the buffer. -/
def updateWebVitalsInUnifiedModel (s : SdkState) : SdkState :=
  { s with
    unifiedDataModel := { s.unifiedDataModel with
      web_vitals := s.buffer.webVitals.foldl mergeVital s.unifiedDataModel.web_vitals }
    buffer := { s.buffer with webVitals := [] } }

/-- `Optima.prototype._resetVolatileDataInUnifiedModel`: clear the volatile
arrays, keep everything else (in particular the web-vital slots). -/
def resetVolatileDataInUnifiedModel (m : UnifiedDataModel) : UnifiedDataModel :=
  { m with resources := [], ajax_requests := [] }

/-- `Optima.prototype._sendUnifiedData`: skip entirely when the model has no
session id; otherwise hand a snapshot of the model to the transport and
reset the volatile arrays (the reset is not conditioned on transport
success; the request is fire-and-forget). -/
def sendUnifiedData (s : SdkState) : SdkState :=
  match s.unifiedDataModel.session_id with
  | none => s
  | some _ =>
    { s with
      sentPayloads := s.sentPayloads ++ [s.unifiedDataModel]
      unifiedDataModel := resetVolatileDataInUnifiedModel s.unifiedDataModel }

/-- `Optima.prototype._prepareFinalDataAndSend`: consolidate, merge the
buffered vitals, then send the unified model. -/
def prepareFinalDataAndSend (now : Int) (ambientMeta : Metadata) (s : SdkState) : SdkState :=
  sendUnifiedData (updateWebVitalsInUnifiedModel (consolidateBufferedData now ambientMeta s))

/-- Which subsystems the constructor and `_init` have enabled, and the
session id they produced.  `duplicateCoreWebVitalsSetup` records the second
run of the core-web-vitals setup performed inside the registration success
callback. -/
structure ActivationFlags where
  batchedCollectionStarted : Bool
  coreWebVitalsObserversStarted : Bool
  ajaxMonitoringStarted : Bool
  pageLifecycleHandlersRegistered : Bool
  eventListenersStarted : Bool
  legacyBatchProcessingStarted : Bool
  duplicateCoreWebVitalsSetup : Bool
  sessionId : Option String
deriving Repr, DecidableEq

/-- The activation sequence of `new Optima(options)` followed by `_init` and
the resolution of the `/api/sessions` registration request.
Order of effects in the source: the constructor runs
`_setupBatchedCollection` (periodic `_collectResources` and periodic
unified-model flush timers) unconditionally; `_init` returns at once with no
API key; otherwise `_initPerformanceMetrics` starts the core-web-vitals
observers, `_setupAjaxMonitoring` patches XHR and fetch, `createSession`
assigns the session id and fires the registration request, and
`_setupPageLifecycleEvents` registers the hidden/beforeunload handlers.
Only the `.then(success => ...)` callback of the registration request is
conditioned on the outcome: it runs `_setupEventListeners`, a second
`_setupPerformanceObservers` pass and `_startBatchProcessing`. -/
def constructAndInit (apiKey : Option String) (generatedId : String)
    (registrationSucceeds : Bool) : ActivationFlags :=
  let flags0 : ActivationFlags :=
    { batchedCollectionStarted := true
      coreWebVitalsObserversStarted := false
      ajaxMonitoringStarted := false
      pageLifecycleHandlersRegistered := false
      eventListenersStarted := false
      legacyBatchProcessingStarted := false
      duplicateCoreWebVitalsSetup := false
      sessionId := none }
  match apiKey with
  | none => flags0
  | some _ =>
    let flags1 :=
      { flags0 with
        coreWebVitalsObserversStarted := true
        ajaxMonitoringStarted := true
        sessionId := some generatedId
        pageLifecycleHandlersRegistered := true }
    if registrationSucceeds then
      { flags1 with
        eventListenersStarted := true
        duplicateCoreWebVitalsSetup := true
        legacyBatchProcessingStarted := true }
    else flags1

/-- State observed by the page-departure handlers: the sent-once flag
`collectionState.unloadSent`, the length of the `buffer.webVitals` array
(which gates the handlers registered by `setupPageVisibilityHandler`), and a
count of the final consolidate-and-transmit operations performed. -/
structure TeardownState where
  unloadSent : Bool
  webVitalsLen : Nat
  finalSends : Nat
deriving Repr, DecidableEq

/-- One `_prepareFinalDataAndSend(true)` call: a final consolidate-and-send
of the unified model (the session id was assigned synchronously in
`createSession`, so `_sendUnifiedData` does transmit), which also clears the
webVitals buffer via `_updateWebVitalsInUnifiedModel`. -/
def performFinalSend (s : TeardownState) : TeardownState :=
  { s with finalSends := s.finalSends + 1, webVitalsLen := 0 }

/-- All `visibilitychange`-to-hidden handlers, in registration order:
the `setupPageVisibilityHandler` handler (registered during the pre-session
core-web-vitals setup) sends iff the webVitals buffer is non-empty; the
`_setupPageLifecycleEvents` handler sends unconditionally with no
`unloadSent` check; on registration success a duplicate
`setupPageVisibilityHandler` registration from the second
`_setupPerformanceObservers` pass runs as well.  The legacy
`startBatchProcessing` visibility handler is never registered because
`batchConfig.visibilityFlushEnabled` is undefined. -/
def handleHidden (registrationSucceeded : Bool) (s : TeardownState) : TeardownState :=
  let s1 := if s.webVitalsLen > 0 then performFinalSend s else s
  let s2 := performFinalSend s1
  let s3 :=
    if registrationSucceeded ∧ s2.webVitalsLen > 0 then performFinalSend s2 else s2
  s3

/-- All `beforeunload` handlers, in registration order: the
`setupPageVisibilityHandler` fallback sends iff the webVitals buffer is
non-empty; the `_setupPageLifecycleEvents` handler sends iff `unloadSent` is
still false and then sets it; the duplicate visibility-handler registration
(on success) sends iff the buffer is non-empty; the `startBatchProcessing`
handler (registered only in the registration success callback) always calls
`_flushBuffers('unload', true)`, which delegates to
`_prepareFinalDataAndSend`. -/
def handleBeforeunload (registrationSucceeded : Bool) (s : TeardownState) : TeardownState :=
  let s1 := if s.webVitalsLen > 0 then performFinalSend s else s
  let s2 := if s1.unloadSent then s1 else { performFinalSend s1 with unloadSent := true }
  let s3 :=
    if registrationSucceeded ∧ s2.webVitalsLen > 0 then performFinalSend s2 else s2
  let s4 := if registrationSucceeded then performFinalSend s3 else s3
  s4

/-- A page departure in which the page first becomes hidden and then fires
`beforeunload`. -/
def processDeparture (registrationSucceeded : Bool) (s : TeardownState) : TeardownState :=
  handleBeforeunload registrationSucceeded (handleHidden registrationSucceeded s)

/-- A `largest-contentful-paint` performance entry (fields the source reads;
the element details are collapsed into `element`). -/
structure LCPEntry where
  startTime : Int
  element : String
deriving Repr, DecidableEq

/-- The state owned by `setupLCP`: its running `lastLCPValue`, the LCP slot
of the unified model it writes directly, and the web-vital events it pushed
into `buffer.webVitals` through `sendEvent`. -/
structure LCPObserverState where
  lastLCPValue : Int
  storedLCP : Option VitalRecord
  bufferedLCPEvents : List Event
deriving Repr, DecidableEq

/-- `setupLCP` starts with `lastLCPValue = 0`, nothing stored and nothing
buffered. -/
def initialLCPObserverState : LCPObserverState :=
  { lastLCPValue := 0, storedLCP := none, bufferedLCPEvents := [] }

/-- One `PerformanceObserver` callback of `setupLCP`: only the LAST entry of
the delivered batch is examined; if its `startTime` strictly exceeds
`lastLCPValue`, the observer sends a `core_web_vital` event (buffered by
`sendEvent` when a session id exists) and then writes the LCP slot of the
unified model directly.  Entries that are not last in their batch are never
looked at. -/
def lcpObserverCallback (timeOrigin : Int) (sessionId : String) (now : Int)
    (s : LCPObserverState) (entries : List LCPEntry) : LCPObserverState :=
  match entries.getLast? with
  | none => s
  | some lastEntry =>
    if lastEntry.startTime > s.lastLCPValue then
      { lastLCPValue := lastEntry.startTime
        storedLCP := some ⟨lastEntry.startTime, timeOrigin + lastEntry.startTime,
          lastEntry.element⟩
        bufferedLCPEvents :=
          s.bufferedLCPEvents ++
            (if sessionId ≠ "" then
              [{ session_id := sessionId
                 event_type := "core_web_vital"
                 event_data := some ⟨"LCP", lastEntry.startTime, lastEntry.element⟩
                 timestamp := now }]
            else []) }
    else s

/-- A sequence of observer callbacks, each tagged with its `Date.now()`. -/
def runLCPObserver (timeOrigin : Int) (sessionId : String)
    (callbacks : List (Int × List LCPEntry)) : LCPObserverState :=
  callbacks.foldl (fun s c => lcpObserverCallback timeOrigin sessionId c.1 s c.2)
    initialLCPObserverState

/-- The running maximum, over a callback sequence, of the startTime of each
batch LAST entry (with the observer initial value 0). -/
def lastEntryRunningMax (callbacks : List (Int × List LCPEntry)) : Int :=
  callbacks.foldl
    (fun m c =>
      match c.2.getLast? with
      | none => m
      | some e => max m e.startTime)
    0

/-- The maximum `startTime` over ALL delivered LCP entries (what the claim
asserts the stored value equals), again with base 0. -/
def maxDeliveredStartTime (callbacks : List (Int × List LCPEntry)) : Int :=
  callbacks.foldl (fun m c => c.2.foldl (fun m2 e => max m2 e.startTime) m) 0

/-- Invariant maintained by the LCP observer: every buffered event is an
LCP `core_web_vital` whose value is bounded by the running maximum, nothing
is buffered before the first stored record, and a stored record always
carries the running maximum as its value. -/
def LCPStateWF (s : LCPObserverState) : Prop :=
  (∀ ev ∈ s.bufferedLCPEvents,
      ∃ v el, ev.event_data = some ⟨"LCP", v, el⟩ ∧ v ≤ s.lastLCPValue) ∧
  (s.storedLCP = none → s.bufferedLCPEvents = []) ∧
  (∀ r, s.storedLCP = some r → r.value = s.lastLCPValue)

/-- A `first-input` performance entry (fields the source reads; target and
timing details are collapsed into `detail`). -/
structure FIDEntry where
  name : String
  startTime : Int
  processingStart : Int
  detail : String
deriving Repr, DecidableEq

/-- The state `setupFID` interacts with: the whole `web_vitals` object of
the unified model (both the merge path and the direct write touch it) and
the webVitals buffer. -/
structure FIDObserverState where
  webVitals : WebVitals
  buffer : List Event
deriving Repr, DecidableEq

/-- `setupFID` starts against the fresh model and an empty buffer. -/
def initialFIDObserverState : FIDObserverState :=
  { webVitals := WebVitals.empty, buffer := [] }

/-- One `PerformanceObserver` callback of `setupFID`, for a session that
exists (the constructor calls `createSession` synchronously before any
callback can run).  The source takes `entries[0]`, computes
`processingStart - startTime`, calls `sendEvent(..., { immediate: true })`
(which pushes the event and immediately runs
`_updateWebVitalsInUnifiedModel`, clearing the buffer), and THEN assigns the
FID slot of the unified model directly, with no first-wins check.  An empty
batch would fault in the source; observer callbacks always carry at least
one entry. -/
def fidObserverCallback (timeOrigin : Int) (sessionId : String) (now : Int)
    (s : FIDObserverState) (entries : List FIDEntry) : FIDObserverState :=
  match entries.head? with
  | none => s
  | some firstInput =>
    let fidValue := firstInput.processingStart - firstInput.startTime
    let ev : Event :=
      { session_id := sessionId
        event_type := "core_web_vital"
        event_data := some ⟨"FID", fidValue, firstInput.detail⟩
        timestamp := now }
    let merged := (s.buffer ++ [ev]).foldl mergeVital s.webVitals
    { webVitals :=
        { merged with
          FID := some ⟨fidValue, timeOrigin + firstInput.startTime, firstInput.detail⟩ }
      buffer := [] }

/-- A sequence of first-input observer callbacks, each tagged with its
`Date.now()`. -/
def runFIDObserver (timeOrigin : Int) (sessionId : String)
    (callbacks : List (Int × List FIDEntry)) : FIDObserverState :=
  callbacks.foldl (fun s c => fidObserverCallback timeOrigin sessionId c.1 s c.2)
    initialFIDObserverState

/-- Outcome of the underlying network request issued by `sendToServer` via
`fetch`: either the connection fails (the promise rejects), or a response
arrives with an ok/not-ok status and a body that parses as JSON or not. -/
inductive NetOutcome
  | networkFailure
  | response (ok : Bool) (jsonParses : Bool)
deriving Repr, DecidableEq

/-- Which transmission primitive `sendToServer` ends up using. -/
inductive TransportPrimitive
  | sendBeaconUsed
  | fetchUsed
deriving Repr, DecidableEq

/-- The `.then` chain of the `sendToServer` fetch path, before the final
`.catch`: a rejected fetch propagates, a non-ok response throws
`Server responded with status`, a body that fails `response.json()`
propagates the parse error, and otherwise the chain resolves `true`. -/
def fetchResponseChain : NetOutcome → Except String Bool
  | .networkFailure => Except.error "network failure"
  | .response ok jsonParses =>
    if ok = false then Except.error "Server responded with non-ok status"
    else if jsonParses = false then Except.error "response body is not valid JSON"
    else Except.ok true

/-- `sendToServer(endpoint, path, data, apiKey, options)`, abstracted over
the serialized payload: `options.sync` with `navigator.sendBeacon` available
resolves immediately with the beacon queueing result; otherwise (including
the sync-without-beacon fallback) the fetch path runs and its final
`.catch(err => false)` converts every failure into a resolved `false`. -/
def sendToServer (sync beaconAvailable beaconResult : Bool) (net : NetOutcome) :
    TransportPrimitive × Except String Bool :=
  if sync ∧ beaconAvailable then
    (TransportPrimitive.sendBeaconUsed, Except.ok beaconResult)
  else
    (TransportPrimitive.fetchUsed,
      match fetchResponseChain net with
      | Except.ok b => Except.ok b
      | Except.error _ => Except.ok false)

/-- The first argument of the instrumented `window.fetch`: a string URL, a
`Request` instance, or any other value (for example a `URL` object), which
the original fetch accepts but the wrapper does not classify. -/
inductive FetchInput
  | stringUrl (url : String)
  | requestObject (url : String) (method : String)
  | otherObject
deriving Repr, DecidableEq

/-- The `init` options argument of fetch, restricted to the field the
verified properties read. -/
structure FetchInit where
  method : Option String
deriving Repr, DecidableEq

/-- What the wrapped fetch call looks like to its caller: the exact promise
produced by the original fetch (identified by an opaque tag), or a
synchronous exception escaping the wrapper. -/
inductive FetchCallResult
  | ok (promise : Nat)
  | thrown (message : String)
deriving Repr, DecidableEq

/-- The caller-visible result together with what the wrapper recorded. -/
structure MonitoredFetchOutcome where
  callerResult : FetchCallResult
  monitored : Bool
  initialRecord : Option AjaxCallData
deriving Repr, DecidableEq

/-- The literal block-list of agent collection paths tested by the wrapper
(`url.includes(...)` on each). -/
def sdkApiPaths : List String :=
  ["/api/sessions", "/api/events", "/api/resources", "/api/web-vitals", "/api/ajax-calls"]

/-- URL extraction at the top of the fetch wrapper: a string input is the
URL itself, a `Request` input supplies `input.url`, and any other input
leaves the `url` variable `undefined`. -/
def extractFetchUrl : FetchInput → Option String
  | .stringUrl url => some url
  | .requestObject url _ => some url
  | .otherObject => none

/-- Method resolution of the fetch wrapper: a `Request` input supplies its
method; a present `init` overrides it with `init.method || 'GET'`; and the
final `method = method || 'GET'` defaults an absent or empty method. -/
def extractFetchMethod (input : FetchInput) (init : Option FetchInit) : String :=
  let fromRequest : Option String :=
    match input with
    | .requestObject _ m => some m
    | _ => none
  let afterInit : Option String :=
    match init with
    | some i => some (i.method.getD "GET")
    | none => fromRequest
  let raw := afterInit.getD "GET"
  if raw = "" then "GET" else raw

/-- The instrumented `window.fetch` installed by `monitorFetchAPI`.
`origFetch` is the saved original fetch, returning the promise (tagged by a
`Nat`) the host would have received.  For an input that is neither a string
nor a `Request`, the `url` variable stays `undefined` and the block-list
check `url.includes('/api/sessions')` raises a synchronous `TypeError`
that escapes to the caller before the original fetch is ever invoked.
Block-listed URLs return the original promise unmonitored; all other calls
return the very same promise produced by the original fetch while the
wrapper builds an initial AJAX record and attaches its own `.then/.catch`
handlers (which derive new promises and leave the returned one untouched). -/
def monitoredFetch (origFetch : FetchInput → Nat) (now : Int) (input : FetchInput)
    (init : Option FetchInit) : MonitoredFetchOutcome :=
  match extractFetchUrl input with
  | none =>
    { callerResult := FetchCallResult.thrown "TypeError: cannot read includes of undefined"
      monitored := false
      initialRecord := none }
  | some url =>
    if sdkApiPaths.any (fun p => strIncludes url p) then
      { callerResult := FetchCallResult.ok (origFetch input)
        monitored := false
        initialRecord := none }
    else
      { callerResult := FetchCallResult.ok (origFetch input)
        monitored := true
        initialRecord := some
          { type := "fetch"
            method := extractFetchMethod input init
            url := url
            status := 0
            statusText := ""
            startTime := now
            duration := 0
            requestPayloadSize := -1
            responseSize := -1
            aborted := false
            errored := false
            timestamp := now } }

/-- Claim C1, counterexample: constructing the agent with a credential while
session registration fails still leaves the core-web-vitals observers, the
AJAX monitoring and the batched collection/flush timers running, with the
session id already assigned; a subsequent flush on that state actually
transmits a payload.  This contradicts the claim that a failed registration
leaves the agent with no observer started and no collection or flushing. -/
theorem activation_gating_counterexample :
    (constructAndInit (some "key") "sid" false).coreWebVitalsObserversStarted = true ∧
    (constructAndInit (some "key") "sid" false).ajaxMonitoringStarted = true ∧
    (constructAndInit (some "key") "sid" false).batchedCollectionStarted = true ∧
    (constructAndInit (some "key") "sid" false).sessionId = some "sid" ∧
    (prepareFinalDataAndSend 7 ⟨"https://host/page", 7, 0⟩
        { constructSdkState (some "key") with sessionId := some "sid" }).sentPayloads.length
      = 1 := by
  decide

/-- Claim C1, amended: with a credential the core-web-vitals observers, the
AJAX monitoring, the page-lifecycle handlers and the constructor batched
collection/flush loop are all enabled before the `/api/sessions`
registration resolves and regardless of its outcome, and the session id is
assigned before the request is answered; only `_setupEventListeners`, the
second performance-observer pass and the legacy batch processing are gated
on registration success. -/
theorem activation_gating_amended (apiKey generatedId : String)
    (registrationSucceeds : Bool) :
    (constructAndInit (some apiKey) generatedId registrationSucceeds).coreWebVitalsObserversStarted
        = true ∧
    (constructAndInit (some apiKey) generatedId registrationSucceeds).ajaxMonitoringStarted
        = true ∧
    (constructAndInit (some apiKey) generatedId registrationSucceeds).batchedCollectionStarted
        = true ∧
    (constructAndInit (some apiKey) generatedId registrationSucceeds).pageLifecycleHandlersRegistered
        = true ∧
    (constructAndInit (some apiKey) generatedId registrationSucceeds).sessionId
        = some generatedId ∧
    (constructAndInit (some apiKey) generatedId registrationSucceeds).eventListenersStarted
        = registrationSucceeds ∧
    (constructAndInit (some apiKey) generatedId registrationSucceeds).legacyBatchProcessingStarted
        = registrationSucceeds ∧
    (constructAndInit (some apiKey) generatedId registrationSucceeds).duplicateCoreWebVitalsSetup
        = registrationSucceeds := by
  cases registrationSucceeds <;> simp [constructAndInit]

/-- Claim C2, counterexample: a hidden-then-beforeunload departure starting
from a fresh collection state (flag clear, empty webVitals buffer, even with
registration failed so that only the always-registered handlers exist)
performs two final consolidate-and-transmit operations, not at most one: the
visibility-hidden handler of `_setupPageLifecycleEvents` sends without
consulting `unloadSent`, and the beforeunload handler then sends again
because the flag is still false. -/
theorem teardown_two_sends_counterexample :
    (processDeparture false ⟨false, 0, 0⟩).finalSends = 2 := by
  decide

/-- Claim C2, amended: for a hidden-then-beforeunload departure the agent
performs `(if the webVitals buffer was non-empty then 1 else 0) + 2 + (if
registration succeeded then 1 else 0)` final sends — always at least two.
The `unloadSent` flag guards only the beforeunload handler registered by
`_setupPageLifecycleEvents`: after the departure it is set, so a repeated
beforeunload adds no further send from that handler (only the unguarded
legacy unload flush fires again when registration succeeded). -/
theorem teardown_sends_amended (registrationSucceeded : Bool) (w : Nat) :
    (processDeparture registrationSucceeded ⟨false, w, 0⟩).finalSends
        = (if 0 < w then 1 else 0) + 2 + (if registrationSucceeded then 1 else 0) ∧
    (processDeparture registrationSucceeded ⟨false, w, 0⟩).unloadSent = true ∧
    (handleBeforeunload registrationSucceeded
          (processDeparture registrationSucceeded ⟨false, w, 0⟩)).finalSends
        = (processDeparture registrationSucceeded ⟨false, w, 0⟩).finalSends
          + (if registrationSucceeded then 1 else 0) := by
  cases registrationSucceeded <;> by_cases h : 0 < w <;>
    simp [processDeparture, handleHidden, handleBeforeunload, performFinalSend, h]

/-- Claim C5, counterexample: on the agent constructed without a credential,
a flush is not a no-op on the unified model — it rewrites the model
timestamp (and metadata), even though it transmits nothing. -/
theorem no_credential_flush_counterexample :
    (prepareFinalDataAndSend 5 ⟨"https://host/page", 5, 0⟩
          (constructSdkState none)).unifiedDataModel
      ≠ (constructSdkState none).unifiedDataModel := by
  decide

/-- Claim C5, amended: constructing the agent without a credential produces
no session id (`_init` returns before `createSession`), starts no signal
observers (no core-web-vitals observers, no AJAX monitoring, no event
listeners), and a subsequent flush transmits nothing and leaves the buffers,
the vital slots and the volatile arrays unchanged — but the flush is not a
strict no-op on the unified model: it refreshes the model timestamp and
metadata fields. -/
theorem no_credential_inert_amended (generatedId : String) (b : Bool) (now : Int)
    (m : Metadata) :
    initStep generatedId (constructSdkState none) = constructSdkState none ∧
    (constructSdkState none).sessionId = none ∧
    (constructAndInit none generatedId b).coreWebVitalsObserversStarted = false ∧
    (constructAndInit none generatedId b).ajaxMonitoringStarted = false ∧
    (constructAndInit none generatedId b).eventListenersStarted = false ∧
    (constructAndInit none generatedId b).sessionId = none ∧
    (prepareFinalDataAndSend now m (constructSdkState none)).sentPayloads = [] ∧
    (prepareFinalDataAndSend now m (constructSdkState none)).buffer = initialBuffer ∧
    (prepareFinalDataAndSend now m (constructSdkState none)).unifiedDataModel.web_vitals
        = WebVitals.empty ∧
    (prepareFinalDataAndSend now m (constructSdkState none)).unifiedDataModel.resources = [] ∧
    (prepareFinalDataAndSend now m (constructSdkState none)).unifiedDataModel.ajax_requests
        = [] ∧
    (prepareFinalDataAndSend now m (constructSdkState none)).sessionId = none ∧
    (prepareFinalDataAndSend now m (constructSdkState none)).unifiedDataModel.timestamp
        = some now ∧
    (prepareFinalDataAndSend now m (constructSdkState none)).unifiedDataModel.meta = some m := by
  simp [initStep, constructSdkState, constructAndInit, prepareFinalDataAndSend,
    consolidateBufferedData, updateWebVitalsInUnifiedModel, sendUnifiedData,
    initialBuffer, initialUnifiedDataModel]

/-- Claim C6: the constructed `batchConfig` never defines `maxBufferSize`,
so the `length > maxSize` comparison in `trimBuffers` is against `undefined`
and is always false — a buffer holding N+1 = 3 records survives a trim
untouched.  The second conjunct shows the slice the source would take if the
field were actually set to N = 2: exactly the 2 most recent records, which
is what the claim (and the source comment about preventing memory bloat)
describes. -/
theorem trim_buffers_never_trims_bug :
    trimBuffers (constructedBatchConfig 5000)
        { initialBuffer with
          events := [⟨"sid", "a", none, 1⟩, ⟨"sid", "b", none, 2⟩, ⟨"sid", "c", none, 3⟩] }
      = { initialBuffer with
          events := [⟨"sid", "a", none, 1⟩, ⟨"sid", "b", none, 2⟩, ⟨"sid", "c", none, 3⟩] } ∧
    trimOne (some 2) [(⟨"sid", "a", none, 1⟩ : Event), ⟨"sid", "b", none, 2⟩, ⟨"sid", "c", none, 3⟩]
      = [⟨"sid", "b", none, 2⟩, ⟨"sid", "c", none, 3⟩] := by
  decide

/-- Claim C8: whenever `_sendUnifiedData` runs with a session id in the
model (in particular on every successful transmission), the full model
snapshot — including the consolidated resources — is handed to the
transport, and immediately afterwards the model resources and ajax_requests
arrays are empty while the web-vital slots, the session id and the model
timestamp are untouched by the reset. -/
theorem send_unified_resets_volatile (s : SdkState) (sid : String)
    (h : s.unifiedDataModel.session_id = some sid) :
    (sendUnifiedData s).sentPayloads = s.sentPayloads ++ [s.unifiedDataModel] ∧
    (sendUnifiedData s).unifiedDataModel.resources = [] ∧
    (sendUnifiedData s).unifiedDataModel.ajax_requests = [] ∧
    (sendUnifiedData s).unifiedDataModel.web_vitals = s.unifiedDataModel.web_vitals ∧
    (sendUnifiedData s).unifiedDataModel.session_id = s.unifiedDataModel.session_id ∧
    (sendUnifiedData s).unifiedDataModel.timestamp = s.unifiedDataModel.timestamp := by
  simp [sendUnifiedData, resetVolatileDataInUnifiedModel, h]

/-- Witness for C8: a concrete send on a registered model with one collected
resource empties the model resources array and transmits the pre-reset
snapshot. -/
theorem send_unified_resets_volatile_witness :
    (sendUnifiedData
        { apiKey := some "key"
          sessionId := some "sid"
          buffer := initialBuffer
          unifiedDataModel :=
            { initialUnifiedDataModel with
              session_id := some "sid"
              resources := [⟨"https://cdn.example.com/app.js", "script", 100, 40, 2000, "h2", 0, 0, "script"⟩] }
          sentPayloads := []
          unloadSent := false }).unifiedDataModel.resources = [] :=
  (send_unified_resets_volatile
    { apiKey := some "key"
      sessionId := some "sid"
      buffer := initialBuffer
      unifiedDataModel :=
        { initialUnifiedDataModel with
          session_id := some "sid"
          resources := [⟨"https://cdn.example.com/app.js", "script", 100, 40, 2000, "h2", 0, 0, "script"⟩] }
      sentPayloads := []
      unloadSent := false } "sid" rfl).2.1

/-- Claim C9: `sendToServer` always resolves (never rejects or throws to its
caller); the non-urgent path uses the asynchronous request and yields `true`
exactly when the response is ok and its body parses, and `false` on every
network failure, non-ok status or parse failure; the urgent path uses
`navigator.sendBeacon` when it is available and otherwise behaves exactly
like the non-urgent path. -/
theorem send_to_server_semantics (sync beaconAvailable beaconResult : Bool)
    (net : NetOutcome) :
    (∃ b, (sendToServer sync beaconAvailable beaconResult net).2 = Except.ok b) ∧
    sendToServer false beaconAvailable beaconResult net
      = (TransportPrimitive.fetchUsed,
          Except.ok (decide (net = NetOutcome.response true true))) ∧
    sendToServer true true beaconResult net
      = (TransportPrimitive.sendBeaconUsed, Except.ok beaconResult) ∧
    sendToServer true false beaconResult net = sendToServer false false beaconResult net := by
  refine ⟨?_, ?_, ?_, ?_⟩
  · by_cases h : sync ∧ beaconAvailable
    · exact ⟨beaconResult, by simp [sendToServer, h]⟩
    · rcases hfc : fetchResponseChain net with e | b
      · exact ⟨false, by simp [sendToServer, h, hfc]⟩
      · exact ⟨b, by simp [sendToServer, h, hfc]⟩
  · rcases net with _ | ⟨ok, jsonParses⟩
    · simp [sendToServer, fetchResponseChain]
    · cases ok <;> cases jsonParses <;> simp [sendToServer, fetchResponseChain]
  · simp [sendToServer]
  · simp [sendToServer]

/-- Claim C10: for every string input and every `Request` input the
instrumented `window.fetch` hands back exactly the promise produced by the
original fetch (whether the URL matches the agent block-list or not, and
independently of the telemetry record it builds); but for any other input —
for example a `URL` object, which the original fetch accepts — the wrapper
throws a synchronous TypeError to the caller because its `url` variable
stays undefined when the input is neither a string nor a `Request`. -/
theorem monitored_fetch_transparency_bug (origFetch : FetchInput → Nat) (now : Int)
    (url method : String) (init : Option FetchInit) :
    (monitoredFetch origFetch now (FetchInput.stringUrl url) init).callerResult
      = FetchCallResult.ok (origFetch (FetchInput.stringUrl url)) ∧
    (monitoredFetch origFetch now (FetchInput.requestObject url method) init).callerResult
      = FetchCallResult.ok (origFetch (FetchInput.requestObject url method)) ∧
    (monitoredFetch origFetch now FetchInput.otherObject init).callerResult
      = FetchCallResult.thrown "TypeError: cannot read includes of undefined" := by
  refine ⟨?_, ?_, rfl⟩ <;>
    · simp only [monitoredFetch, extractFetchUrl]
      split <;> rfl

/-- One LCP callback changes `lastLCPValue` to the maximum of the old value
and the startTime of the batch last entry (no entry: unchanged). -/
theorem lcpCallback_lastLCPValue (timeOrigin : Int) (sessionId : String) (now : Int)
    (s : LCPObserverState) (entries : List LCPEntry) :
    (lcpObserverCallback timeOrigin sessionId now s entries).lastLCPValue
      = (match entries.getLast? with
         | none => s.lastLCPValue
         | some e => max s.lastLCPValue e.startTime) := by
  cases hl : entries.getLast? with
  | none => simp [lcpObserverCallback, hl]
  | some e =>
    by_cases hgt : e.startTime > s.lastLCPValue
    · simp [lcpObserverCallback, hl, hgt, max_eq_right (le_of_lt hgt)]
    · simp [lcpObserverCallback, hl, hgt, max_eq_left (not_lt.mp hgt)]

/-- One LCP callback replaces the stored record only when the batch last
entry strictly exceeds the running maximum. -/
theorem lcpCallback_stored (timeOrigin : Int) (sessionId : String) (now : Int)
    (s : LCPObserverState) (entries : List LCPEntry) :
    (lcpObserverCallback timeOrigin sessionId now s entries).storedLCP
      = (match entries.getLast? with
         | none => s.storedLCP
         | some e =>
           if e.startTime > s.lastLCPValue then
             some ⟨e.startTime, timeOrigin + e.startTime, e.element⟩
           else s.storedLCP) := by
  cases hl : entries.getLast? with
  | none => simp [lcpObserverCallback, hl]
  | some e =>
    by_cases hgt : e.startTime > s.lastLCPValue <;> simp [lcpObserverCallback, hl, hgt]

/-- The running maximum never decreases across a callback. -/
theorem lcpCallback_last_le (timeOrigin : Int) (sessionId : String) (now : Int)
    (s : LCPObserverState) (entries : List LCPEntry) :
    s.lastLCPValue ≤ (lcpObserverCallback timeOrigin sessionId now s entries).lastLCPValue := by
  rw [lcpCallback_lastLCPValue]
  cases entries.getLast? with
  | none => exact le_refl _
  | some e => exact le_max_left _ _

/-- The running maximum never decreases across a callback sequence. -/
theorem runLCP_fold_last_le (timeOrigin : Int) (sessionId : String)
    (callbacks : List (Int × List LCPEntry)) :
    ∀ s : LCPObserverState,
      s.lastLCPValue
        ≤ (callbacks.foldl (fun a c => lcpObserverCallback timeOrigin sessionId c.1 a c.2)
            s).lastLCPValue := by
  induction callbacks with
  | nil => intro s; exact le_refl _
  | cons c rest ih =>
    intro s
    simp only [List.foldl_cons]
    exact le_trans (lcpCallback_last_le timeOrigin sessionId c.1 s c.2) (ih _)

/-- After a callback sequence, `lastLCPValue` is the running maximum of the
batch-last startTimes. -/
theorem runLCP_fold_last (timeOrigin : Int) (sessionId : String)
    (callbacks : List (Int × List LCPEntry)) :
    ∀ s : LCPObserverState,
      (callbacks.foldl (fun a c => lcpObserverCallback timeOrigin sessionId c.1 a c.2)
          s).lastLCPValue
        = callbacks.foldl
            (fun m c => match c.2.getLast? with | none => m | some e => max m e.startTime)
            s.lastLCPValue := by
  induction callbacks with
  | nil => intro s; rfl
  | cons c rest ih =>
    intro s
    simp only [List.foldl_cons]
    rw [ih, lcpCallback_lastLCPValue]

/-- After a callback sequence, the stored value is the final running maximum
when that maximum rose above the starting one, and the starting record
otherwise. -/
theorem runLCP_fold_stored (timeOrigin : Int) (sessionId : String)
    (callbacks : List (Int × List LCPEntry)) :
    ∀ s : LCPObserverState,
      (callbacks.foldl (fun a c => lcpObserverCallback timeOrigin sessionId c.1 a c.2)
          s).storedLCP.map VitalRecord.value
        = if s.lastLCPValue
              < (callbacks.foldl (fun a c => lcpObserverCallback timeOrigin sessionId c.1 a c.2)
                  s).lastLCPValue
          then some
              ((callbacks.foldl (fun a c => lcpObserverCallback timeOrigin sessionId c.1 a c.2)
                  s).lastLCPValue)
          else s.storedLCP.map VitalRecord.value := by
  induction callbacks with
  | nil => intro s; simp
  | cons c rest ih =>
    intro s
    simp only [List.foldl_cons]
    rcases hl : c.2.getLast? with _ | e
    · have hstep : lcpObserverCallback timeOrigin sessionId c.1 s c.2 = s := by
        simp [lcpObserverCallback, hl]
      rw [hstep]
      exact ih s
    · by_cases hgt : e.startTime > s.lastLCPValue
      · have h1last :
            (lcpObserverCallback timeOrigin sessionId c.1 s c.2).lastLCPValue = e.startTime := by
          rw [lcpCallback_lastLCPValue]
          simp [hl, max_eq_right (le_of_lt hgt)]
        have h1stored :
            (lcpObserverCallback timeOrigin sessionId c.1 s c.2).storedLCP
              = some ⟨e.startTime, timeOrigin + e.startTime, e.element⟩ := by
          rw [lcpCallback_stored]
          simp [hl, hgt]
        have hmono :
            (lcpObserverCallback timeOrigin sessionId c.1 s c.2).lastLCPValue
              ≤ (rest.foldl (fun a c2 => lcpObserverCallback timeOrigin sessionId c2.1 a c2.2)
                  (lcpObserverCallback timeOrigin sessionId c.1 s c.2)).lastLCPValue :=
          runLCP_fold_last_le timeOrigin sessionId rest _
        have houter :
            s.lastLCPValue
              < (rest.foldl (fun a c2 => lcpObserverCallback timeOrigin sessionId c2.1 a c2.2)
                  (lcpObserverCallback timeOrigin sessionId c.1 s c.2)).lastLCPValue :=
          lt_of_lt_of_le (h1last ▸ hgt) hmono
    -- combine the inner characterization with the outer condition
        rw [ih]
        rw [if_pos houter]
        by_cases hc :
            (lcpObserverCallback timeOrigin sessionId c.1 s c.2).lastLCPValue
              < (rest.foldl (fun a c2 => lcpObserverCallback timeOrigin sessionId c2.1 a c2.2)
                  (lcpObserverCallback timeOrigin sessionId c.1 s c.2)).lastLCPValue
        · rw [if_pos hc]
        · rw [if_neg hc]
          have heq :
              (rest.foldl (fun a c2 => lcpObserverCallback timeOrigin sessionId c2.1 a c2.2)
                  (lcpObserverCallback timeOrigin sessionId c.1 s c.2)).lastLCPValue
                = (lcpObserverCallback timeOrigin sessionId c.1 s c.2).lastLCPValue :=
            le_antisymm (not_lt.mp hc) hmono
          rw [h1stored, heq, h1last]
          rfl
      · have hstep : lcpObserverCallback timeOrigin sessionId c.1 s c.2 = s := by
          simp [lcpObserverCallback, hl, hgt]
        rw [hstep]
        exact ih s

/-- One LCP callback preserves the observer invariant. -/
theorem lcpCallback_wf (timeOrigin : Int) (sessionId : String) (now : Int)
    (s : LCPObserverState) (entries : List LCPEntry) (h : LCPStateWF s) :
    LCPStateWF (lcpObserverCallback timeOrigin sessionId now s entries) := by
  obtain ⟨hbuf, hnone, hval⟩ := h
  cases hl : entries.getLast? with
  | none =>
    have hstep : lcpObserverCallback timeOrigin sessionId now s entries = s := by
      simp [lcpObserverCallback, hl]
    rw [hstep]
    exact ⟨hbuf, hnone, hval⟩
  | some e =>
    by_cases hgt : e.startTime > s.lastLCPValue
    · have hstep : lcpObserverCallback timeOrigin sessionId now s entries
          = { lastLCPValue := e.startTime
              storedLCP := some ⟨e.startTime, timeOrigin + e.startTime, e.element⟩
              bufferedLCPEvents :=
                s.bufferedLCPEvents ++
                  (if sessionId ≠ "" then
                    [{ session_id := sessionId
                       event_type := "core_web_vital"
                       event_data := some ⟨"LCP", e.startTime, e.element⟩
                       timestamp := now }]
                  else []) } := by
        simp [lcpObserverCallback, hl, hgt]
      rw [hstep]
      refine ⟨?_, ?_, ?_⟩
      · intro ev hev
        rcases List.mem_append.mp hev with h1 | h2
        · obtain ⟨v, el, hd, hle⟩ := hbuf ev h1
          exact ⟨v, el, hd, le_trans hle (le_of_lt hgt)⟩
        · by_cases hs : sessionId = ""
          · simp [hs] at h2
          · simp [hs] at h2
            subst h2
            exact ⟨e.startTime, e.element, rfl, le_refl _⟩
      · intro hq
        simp at hq
      · intro r hr
        cases hr
        rfl
    · have hstep : lcpObserverCallback timeOrigin sessionId now s entries = s := by
        simp [lcpObserverCallback, hl, hgt]
      rw [hstep]
      exact ⟨hbuf, hnone, hval⟩

/-- A callback sequence preserves the observer invariant. -/
theorem runLCP_fold_wf (timeOrigin : Int) (sessionId : String)
    (callbacks : List (Int × List LCPEntry)) :
    ∀ s : LCPObserverState, LCPStateWF s →
      LCPStateWF
        (callbacks.foldl (fun a c => lcpObserverCallback timeOrigin sessionId c.1 a c.2) s) := by
  induction callbacks with
  | nil => intro s h; exact h
  | cons c rest ih =>
    intro s h
    simp only [List.foldl_cons]
    exact ih _ (lcpCallback_wf timeOrigin sessionId c.1 s c.2 h)

/-- Merging an LCP event whose value does not exceed the stored LCP record
leaves the whole `web_vitals` object unchanged. -/
theorem mergeVital_lcp_le (wv : WebVitals) (ev : Event) (r : VitalRecord) (v : Int)
    (el : String) (hwv : wv.LCP = some r) (hdata : ev.event_data = some ⟨"LCP", v, el⟩)
    (hle : v ≤ r.value) : mergeVital wv ev = wv := by
  unfold mergeVital
  rw [hdata]
  simp [hwv, not_lt.mpr hle]

/-- Folding a list of LCP events whose values are bounded by the stored
record leaves the `web_vitals` object unchanged. -/
theorem foldl_mergeVital_lcp_id (r : VitalRecord) (l : List Event) :
    ∀ wv : WebVitals, wv.LCP = some r →
      (∀ ev ∈ l, ∃ v el, ev.event_data = some ⟨"LCP", v, el⟩ ∧ v ≤ r.value) →
      l.foldl mergeVital wv = wv := by
  induction l with
  | nil => intro wv _ _; rfl
  | cons e rest ih =>
    intro wv hwv h
    obtain ⟨v, el, hd, hle⟩ := h e (by simp)
    have hm : mergeVital wv e = wv := mergeVital_lcp_le wv e r v el hwv hd hle
    simp only [List.foldl_cons, hm]
    exact ih wv hwv (fun ev hev => h ev (by simp [hev]))

/-- Claim C3, counterexample: one observer callback delivering the entries
with start times 800 then 650 (in that order, in a single batch) stores 650,
not the maximum 800: `setupLCP` examines only the LAST entry of each
delivered batch, so the 800 entry is never looked at. -/
theorem lcp_batch_counterexample :
    (runLCPObserver 0 "sess" [(0, [⟨800, "hero"⟩, ⟨650, "late"⟩])]).storedLCP.map
        VitalRecord.value
      = some 650 ∧
    maxDeliveredStartTime [(0, [⟨800, "hero"⟩, ⟨650, "late"⟩])] = 800 := by
  decide

/-- Claim C3, amended: across every grouping of LCP entries into callbacks,
the running `lastLCPValue` and the stored LCP record track the maximum of
the LAST entry of each batch (not of all delivered entries): the stored
value equals that running maximum once it is positive, a callback whose last
entry does not strictly exceed it leaves the observer state (and hence the
stored record) completely unchanged, and replaying the buffered LCP events
through the `_updateWebVitalsInUnifiedModel` merge (as the delayed re-check
does) never changes a model whose LCP slot already holds the stored record.
When each callback carries a single entry — in particular 800 then 650 —
this coincides with the claimed maximum rule and the stored value is 800. -/
theorem lcp_stored_amended (timeOrigin : Int) (sessionId : String)
    (callbacks : List (Int × List LCPEntry)) :
    (runLCPObserver timeOrigin sessionId callbacks).lastLCPValue
        = lastEntryRunningMax callbacks ∧
    (runLCPObserver timeOrigin sessionId callbacks).storedLCP.map VitalRecord.value
        = (if 0 < lastEntryRunningMax callbacks then some (lastEntryRunningMax callbacks)
           else none) ∧
    (∀ (now : Int) (entries : List LCPEntry) (e : LCPEntry),
        entries.getLast? = some e →
        e.startTime ≤ (runLCPObserver timeOrigin sessionId callbacks).lastLCPValue →
        lcpObserverCallback timeOrigin sessionId now
            (runLCPObserver timeOrigin sessionId callbacks) entries
          = runLCPObserver timeOrigin sessionId callbacks) ∧
    (∀ wv : WebVitals,
        wv.LCP = (runLCPObserver timeOrigin sessionId callbacks).storedLCP →
        (runLCPObserver timeOrigin sessionId callbacks).bufferedLCPEvents.foldl mergeVital wv
          = wv) ∧
    (runLCPObserver 0 "sess" [(0, [⟨800, "hero"⟩]), (1, [⟨650, "late"⟩])]).storedLCP.map
        VitalRecord.value
      = some 800 := by
  have hlast :
      (runLCPObserver timeOrigin sessionId callbacks).lastLCPValue
        = lastEntryRunningMax callbacks :=
    runLCP_fold_last timeOrigin sessionId callbacks initialLCPObserverState
  have hwf : LCPStateWF (runLCPObserver timeOrigin sessionId callbacks) :=
    runLCP_fold_wf timeOrigin sessionId callbacks initialLCPObserverState
      ⟨fun ev hev => absurd hev (List.not_mem_nil ev), fun _ => rfl, fun r hr => by cases hr⟩
  refine ⟨hlast, ?_, ?_, ?_, by decide⟩
  · have hst := runLCP_fold_stored timeOrigin sessionId callbacks initialLCPObserverState
    have hlast2 :
        (List.foldl (fun a c => lcpObserverCallback timeOrigin sessionId c.1 a c.2)
            initialLCPObserverState callbacks).lastLCPValue
          = lastEntryRunningMax callbacks := hlast
    simp only [runLCPObserver]
    rw [hst, hlast2]
    rfl
  · intro now entries e hl hle
    have hne : ¬ e.startTime > (runLCPObserver timeOrigin sessionId callbacks).lastLCPValue :=
      not_lt.mpr hle
    simp [lcpObserverCallback, hl, hne]
  · intro wv hwv
    obtain ⟨hbuf, hnone, hval⟩ := hwf
    cases hstored : (runLCPObserver timeOrigin sessionId callbacks).storedLCP with
    | none =>
      rw [hnone hstored]
      rfl
    | some r =>
      rw [hstored] at hwv
      refine foldl_mergeVital_lcp_id r _ wv hwv ?_
      intro ev hev
      obtain ⟨v, el, hd, hle⟩ := hbuf ev hev
      exact ⟨v, el, hd, by rw [hval r hstored]; exact hle⟩

/-- Witness for C3 after the amendment: on a concrete run whose maximum is
800 a further callback with a smaller last entry (100) leaves the observer
state unchanged. -/
theorem lcp_stored_amended_witness :
    lcpObserverCallback 0 "sess" 5 (runLCPObserver 0 "sess" [(0, [⟨800, "hero"⟩])])
        [⟨100, "img"⟩]
      = runLCPObserver 0 "sess" [(0, [⟨800, "hero"⟩])] := by
  have h := lcp_stored_amended 0 "sess" [(0, [⟨800, "hero"⟩])]
  exact h.2.2.1 5 [⟨100, "img"⟩] ⟨100, "img"⟩ (by decide) (by decide)

/-- A URL that is not already collected makes `_isResourceProcessed` false,
so its URL is not among the collected names. -/
theorem isResourceProcessed_false_notMem (model : List ProcessedResource) (url : String)
    (h : isResourceProcessed model url = false) :
    url ∉ model.map ProcessedResource.name := by
  intro hmem
  obtain ⟨x, hx, hname⟩ := List.mem_map.mp hmem
  have htrue : isResourceProcessed model url = true := by
    simp only [isResourceProcessed, List.any_eq_true]
    exact ⟨x, hx, by simp [hname]⟩
  rw [htrue] at h
  cases h

/-- The collection loop keeps the collected full URLs pairwise distinct. -/
theorem collectResources_names_nodup (entries : List PerfResourceEntry) :
    ∀ model : List ProcessedResource,
      (model.map ProcessedResource.name).Nodup →
      ((collectResources model entries).map ProcessedResource.name).Nodup := by
  induction entries with
  | nil => intro model h; exact h
  | cons r rest ih =>
    intro model h
    show ((collectResources
        (if isResourceProcessed model r.name then model else model ++ [processResource r])
        rest).map ProcessedResource.name).Nodup
    by_cases hp : isResourceProcessed model r.name
    · rw [if_pos hp]
      exact ih model h
    · rw [if_neg hp]
      refine ih _ ?_
      have hnotmem : r.name ∉ model.map ProcessedResource.name :=
        isResourceProcessed_false_notMem model r.name (by simpa using hp)
      have hname : (processResource r).name = r.name := rfl
      simp [List.nodup_append, h, hname, hnotmem]

/-- Claim C4, counterexample: two resources with the identical composite
dedup key (same type `script`, same URL without its query string, both in
the `fast` duration bucket, collected at the same moment, hence within any
dedup window) are BOTH retained by the collection path — `_collectResources`
compares exact full URLs only and never consults the composite key. -/
theorem resource_dedup_counterexample :
    hashResource (processResource
        ⟨"https://cdn.example.com/app.js?v=1", "script", 100, 10, 2000, "h2", 0, 0⟩)
      = hashResource (processResource
        ⟨"https://cdn.example.com/app.js?v=2", "script", 120, 20, 2000, "h2", 0, 0⟩) ∧
    (collectResources []
        [⟨"https://cdn.example.com/app.js?v=1", "script", 100, 10, 2000, "h2", 0, 0⟩,
         ⟨"https://cdn.example.com/app.js?v=2", "script", 120, 20, 2000, "h2", 0, 0⟩]).length
      = 2 := by
  decide

/-- Claim C4, amended: on the collection path a resource is dropped exactly
when a record with the identical full URL is already collected, so no two
collected records share a full URL; the composite-key dedup of
`shouldCollectResource` never runs — the function is not called by the
collection path, and even when called it accepts everything because the
constructed `batchConfig` leaves `resourceDedupingEnabled` undefined — so
two records sharing the composite key but with different full URLs are both
retained (no time window is involved anywhere). -/
theorem resource_dedup_amended (entries : List PerfResourceEntry)
    (model : List ProcessedResource) (r : PerfResourceEntry)
    (hashMap : List (String × Int)) (now : Int) (pr : ProcessedResource) :
    ((collectResources [] entries).map ProcessedResource.name).Nodup ∧
    collectResources model [r]
      = (if isResourceProcessed model r.name then model else model ++ [processResource r]) ∧
    shouldCollectResource (truthy (constructedBatchConfig 5000).resourceDedupingEnabled)
        hashMap now pr
      = (true, hashMap) :=
  ⟨collectResources_names_nodup entries [] (by simp), rfl, rfl⟩

/-- Merging any event into a `web_vitals` object whose FID slot is set
leaves the FID slot unchanged: the merge path of
`_updateWebVitalsInUnifiedModel` is first-wins for FID. -/
theorem mergeVital_FID_of_set (wv : WebVitals) (ev : Event) (r : VitalRecord)
    (h : wv.FID = some r) : (mergeVital wv ev).FID = some r := by
  cases hd : ev.event_data with
  | none => simpa [mergeVital, hd] using h
  | some d =>
    by_cases h0 : d.name = ""
    · simpa [mergeVital, hd, h0] using h
    · by_cases hLname : d.name = "LCP"
      · rcases hL : wv.LCP with _ | old
        · simpa [mergeVital, hd, h0, hLname, hL] using h
        · by_cases hv : d.value > old.value <;>
            simpa [mergeVital, hd, h0, hLname, hL, hv] using h
      · by_cases hFname : d.name = "FID"
        · simp [mergeVital, hd, h0, hLname, hFname, h]
        · by_cases hCname : d.name = "CLS"
          · rcases hC : wv.CLS with _ | old
            · simpa [mergeVital, hd, h0, hLname, hFname, hCname, hC] using h
            · by_cases hv : d.value > old.value <;>
                simpa [mergeVital, hd, h0, hLname, hFname, hCname, hC, hv] using h
          · by_cases hIname : d.name = "INP"
            · rcases hI : wv.INP with _ | old
              · simpa [mergeVital, hd, h0, hLname, hFname, hCname, hIname, hI] using h
              · by_cases hv : d.value > old.value <;>
                  simpa [mergeVital, hd, h0, hLname, hFname, hCname, hIname, hI, hv] using h
            · simpa [mergeVital, hd, h0, hLname, hFname, hCname, hIname] using h

/-- Claim C7, counterexample: after a first qualifying input sets the FID
record to value 10, a second delivered first-input entry REPLACES it with
value 99 — `setupFID` assigns the FID slot unconditionally after the
(first-wins) merge ran, so the stored record does not stay unchanged. -/
theorem fid_overwrite_counterexample :
    (runFIDObserver 0 "sess" [(0, [⟨"pointerdown", 100, 110, "button"⟩])]).webVitals.FID
      = some ⟨10, 100, "button"⟩ ∧
    (runFIDObserver 0 "sess"
        [(0, [⟨"pointerdown", 100, 110, "button"⟩]),
         (1, [⟨"keydown", 200, 299, "field"⟩])]).webVitals.FID
      = some ⟨99, 200, "field"⟩ := by
  decide

/-- Claim C7, amended: every delivered first-input callback overwrites the
stored FID record with the record of its FIRST entry (value
`processingStart - startTime`, timestamp `timeOrigin + startTime`), so the
stored record tracks the most recent delivered entry; the first-wins rule
holds only on the buffered merge path of `_updateWebVitalsInUnifiedModel`,
which never alters an already-set FID slot.  Since the platform delivers at
most one `first-input` entry per page, the two behaviours coincide in a
standard run. -/
theorem fid_first_wins_amended (timeOrigin : Int) (sessionId : String) (now : Int)
    (s : FIDObserverState) (e : FIDEntry) (rest : List FIDEntry)
    (wv : WebVitals) (ev : Event) (r : VitalRecord) :
    (fidObserverCallback timeOrigin sessionId now s (e :: rest)).webVitals.FID
      = some ⟨e.processingStart - e.startTime, timeOrigin + e.startTime, e.detail⟩ ∧
    (wv.FID = some r → (mergeVital wv ev).FID = some r) :=
  ⟨rfl, fun h => mergeVital_FID_of_set wv ev r h⟩

/-- Witness for C7 after the amendment: a concrete overwrite by the observer
and a concrete no-op of the merge path on an already-set FID slot. -/
theorem fid_first_wins_amended_witness :
    (mergeVital { WebVitals.empty with FID := some ⟨10, 100, "button"⟩ }
        ⟨"sess", "core_web_vital", some ⟨"FID", 99, "field"⟩, 1⟩).FID
      = some ⟨10, 100, "button"⟩ :=
  (fid_first_wins_amended 0 "sess" 1 initialFIDObserverState
    ⟨"pointerdown", 100, 110, "button"⟩ []
    { WebVitals.empty with FID := some ⟨10, 100, "button"⟩ }
    ⟨"sess", "core_web_vital", some ⟨"FID", 99, "field"⟩, 1⟩
    ⟨10, 100, "button"⟩).2 rfl

end Optima
